import Mathlib

/-!
Shallow embedding of the AHKMiniIDE core components:
  - `ahk_mini_ide/inspector/win_info.py` (data model and the non-Windows
    branch of `capture_snapshot`),
  - `ahk_mini_ide/hotkeys/codegen.py` (pure text generators),
  - `ahk_mini_ide/hotkeys/global_hotkeys.py` (`HotkeyManager.register_all`),
  - `ahk_mini_ide/editor/runner.py` (`AHKRunner` state machine).
Python integers are embedded as `Int`, strings as `String`; OS side effects
(process spawn/terminate/kill, timer arm/disarm, Qt signal emissions) are
recorded as explicit event lists returned next to the successor state.
-/

namespace AHKMiniIDE

/-! ## Python formatting helpers -/

/-- Hex digit character with lowercase letters, as Python `hex` prints. -/
def hexDigitLower (n : Nat) : Char :=
  if n < 10 then Char.ofNat (48 + n) else Char.ofNat (87 + n)

/-- Hex digit character with uppercase letters, as Python format code `X`. -/
def hexDigitUpper (n : Nat) : Char :=
  if n < 10 then Char.ofNat (48 + n) else Char.ofNat (55 + n)

/-- Base-16 digit list of `n` (most significant first, empty for 0),
written with structural recursion on a fuel argument so it evaluates in the
kernel; `fuel = n` always suffices since `n / 16 < n` for positive `n`. -/
def natHexCoreAux (dig : Nat → Char) : Nat → Nat → List Char
  | 0, _ => []
  | _ + 1, 0 => []
  | fuel + 1, n + 1 =>
      natHexCoreAux dig fuel ((n + 1) / 16) ++ [dig ((n + 1) % 16)]

/-- Base-16 digit list of `n`, most significant first, empty for 0. -/
def natHexDigits (dig : Nat → Char) (n : Nat) : List Char :=
  natHexCoreAux dig n n

/-- Lowercase hexadecimal rendering of a natural number, like Python
`"%x" % n`. -/
def natToHexLower (n : Nat) : String :=
  if n = 0 then "0" else String.mk (natHexDigits hexDigitLower n)

/-- Uppercase hexadecimal rendering of a natural number, like Python
`"%X" % n`. -/
def natToHexUpper (n : Nat) : String :=
  if n = 0 then "0" else String.mk (natHexDigits hexDigitUpper n)

/-- Left-pad a string with `'0'` up to width `w`. -/
def padLeft0 (w : Nat) (s : String) : String :=
  String.mk (List.replicate (w - s.length) '0') ++ s

/-- Python `hex(i)`: `0x`-prefixed lowercase hexadecimal, sign in front for
negative values. -/
def pythonHex (i : Int) : String :=
  if i < 0 then "-0x" ++ natToHexLower i.natAbs else "0x" ++ natToHexLower i.natAbs

/-- Python `format(i, "02X")`: uppercase hexadecimal zero-padded to width 2,
with the zero padding inserted after the sign for negative values. -/
def format02X (i : Int) : String :=
  if i < 0 then "-" ++ padLeft0 1 (natToHexUpper i.natAbs)
  else padLeft0 2 (natToHexUpper i.natAbs)

/-- Python `str.split()` with no separator: split on whitespace runs and
drop empty pieces. -/
def pySplit (s : String) : List String :=
  (s.split Char.isWhitespace).filter (fun p => p ≠ "")

/-- Models `os.path.dirname`: everything before the last path separator
(forward or backward slash), empty when the path has none. -/
def pathDirname (p : String) : String :=
  String.mk
    (((p.data.reverse.dropWhile (fun c => ¬(c = '/' ∨ c = '\\'))).drop 1).reverse)

/-! ## `inspector/win_info.py` — data model -/

/-- Embeds the `WindowInfo` dataclass. -/
structure WindowInfo where
  title : String := ""
  class_name : String := ""
  hwnd : Int := 0
  pid : Int := 0
  process_name : String := ""
  exe_path : String := ""
deriving DecidableEq, Repr

/-- Embeds the `MouseCoords` dataclass. -/
structure MouseCoords where
  screen_x : Int := 0
  screen_y : Int := 0
  window_x : Int := 0
  window_y : Int := 0
  client_x : Int := 0
  client_y : Int := 0
deriving DecidableEq, Repr

/-- Embeds the `ControlInfo` dataclass. -/
structure ControlInfo where
  class_nn : String := ""
  hwnd : Int := 0
deriving DecidableEq, Repr

/-- Embeds the `PixelColor` dataclass. -/
structure PixelColor where
  r : Int := 0
  g : Int := 0
  b : Int := 0
deriving DecidableEq, Repr

/-- Embeds the property `PixelColor.hex_rgb`:
`f"0x\x7bself.r:02X\x7d\x7bself.g:02X\x7d\x7bself.b:02X\x7d"`. -/
def PixelColor.hex_rgb (c : PixelColor) : String :=
  "0x" ++ format02X c.r ++ format02X c.g ++ format02X c.b

/-- Embeds the property `PixelColor.decimal_str`:
`f"\x7bself.r\x7d, \x7bself.g\x7d, \x7bself.b\x7d"`. -/
def PixelColor.decimal_str (c : PixelColor) : String :=
  toString c.r ++ ", " ++ toString c.g ++ ", " ++ toString c.b

/-- Embeds the `InspectorSnapshot` dataclass; every field defaults to the
default-constructed sub-record, as with `field(default_factory=...)`. -/
structure InspectorSnapshot where
  window : WindowInfo := {}
  coords : MouseCoords := {}
  control : ControlInfo := {}
  color : PixelColor := {}
deriving DecidableEq, Repr

/-- Embeds the non-Windows branch of `capture_snapshot` (the `else` arm of
`_IS_WINDOWS` in `win_info.py`): it ignores its arguments and returns
`InspectorSnapshot()`, the all-defaults record. -/
def capture_snapshot (_follow_mouse : Bool) (_last_hwnd : Int) : InspectorSnapshot :=
  {}

/-! ## `hotkeys/codegen.py` — pure text generators -/

/-- Embeds `gen_win_activate`. -/
def gen_win_activate (hwnd : Int) (title : String := "")
    (class_name : String := "") (process : String := "") : String :=
  let parts : List String :=
    (if title ≠ "" then ["Title: " ++ title] else [])
      ++ (if class_name ≠ "" then ["Class: " ++ class_name] else [])
      ++ (if process ≠ "" then ["Process: " ++ process] else [])
  let comment := if parts ≠ [] then "  ; " ++ String.intercalate ", " parts else ""
  "WinActivate \"ahk_id " ++ pythonHex hwnd ++ "\"" ++ comment

/-- Embeds `gen_click`. -/
def gen_click (x y : Int) (button : String := "Left") (count : Int := 1)
    (coord_mode : String := "Window") : String :=
  let header := "CoordMode \"Mouse\", \"" ++ coord_mode ++ "\"\n"
  if button = "Left" ∧ count = 1 then
    header ++ "Click " ++ toString x ++ ", " ++ toString y
  else if button = "Left" ∧ count > 1 then
    header ++ "Click " ++ toString x ++ ", " ++ toString y ++ ",, " ++ toString count
  else if count = 1 then
    header ++ "Click " ++ toString x ++ ", " ++ toString y ++ ", \"" ++ button ++ "\""
  else
    header ++ "Click " ++ toString x ++ ", " ++ toString y ++ ", \"" ++ button
      ++ "\", " ++ toString count

/-- Embeds `gen_drag`. -/
def gen_drag (x1 y1 x2 y2 : Int) (button : String := "Left")
    (coord_mode : String := "Window") : String :=
  let header := "CoordMode \"Mouse\", \"" ++ coord_mode ++ "\"\n"
  header ++ "MouseClickDrag \"" ++ button ++ "\", " ++ toString x1 ++ ", "
    ++ toString y1 ++ ", " ++ toString x2 ++ ", " ++ toString y2

/-- Embeds `gen_pixel_loop`; `\x7b` and `\x7d` denote the literal brace
characters of the generated AHK block. -/
def gen_pixel_loop (x y : Int) (target_color : String)
    (coord_mode : String := "Window") (variation : Int := 5)
    (use_pixel_search : Bool := false) : String :=
  let header := "CoordMode \"Pixel\", \"" ++ coord_mode ++ "\"\n"
  if use_pixel_search then
    header ++ "Loop \x7b\n    if PixelSearch(&FoundX, &FoundY, " ++ toString x
      ++ ", " ++ toString y ++ ", " ++ toString x ++ ", " ++ toString y
      ++ ", \"" ++ target_color ++ "\", " ++ toString variation
      ++ ")\n        break\n    Sleep 100\n\x7d"
  else
    header ++ "Loop \x7b\n    CurrentColor := PixelGetColor(" ++ toString x
      ++ ", " ++ toString y ++ ")\n    if (CurrentColor = \"" ++ target_color
      ++ "\")\n        break\n    Sleep 100\n\x7d"

/-! ## `hotkeys/global_hotkeys.py` — `HotkeyManager` -/

/-- Embeds the `HotkeyID` enumeration. -/
inductive HotkeyID
  | CLICK
  | DRAG
  | PIXEL_LOOP
  | WIN_ACTIVATE
deriving DecidableEq, Repr

/-- Numeric value of a `HotkeyID`, as Python `int(hid)`. -/
def HotkeyID.val : HotkeyID → Int
  | .CLICK => 1
  | .DRAG => 2
  | .PIXEL_LOOP => 3
  | .WIN_ACTIVATE => 4

/-- Enumeration member name of a `HotkeyID`, as Python `hid.name`. -/
def HotkeyID.enumName : HotkeyID → String
  | .CLICK => "CLICK"
  | .DRAG => "DRAG"
  | .PIXEL_LOOP => "PIXEL_LOOP"
  | .WIN_ACTIVATE => "WIN_ACTIVATE"

/-- Embeds the mutable fields of `HotkeyManager`: `self._registered`
(an insertion-ordered id→virtual-key dict, modelled as an association
list) and whether `self._filter` holds an installed native event filter. -/
structure HotkeyManager where
  registered : List (Int × Nat) := []
  filterInstalled : Bool := false
deriving DecidableEq, Repr

/-- OS-level actions `register_all` performs, recorded as events. -/
inductive RegEvent
  | osRegisterHotkey (id : Int) (vk : Nat)
  | installFilter
deriving DecidableEq, Repr

/-- Insertion-ordered dict update, as Python `d[k] = v`. -/
def dictInsert (d : List (Int × Nat)) (k : Int) (v : Nat) : List (Int × Nat) :=
  if d.any (fun kv => kv.1 == k) then
    d.map (fun kv => if kv.1 == k then (k, v) else kv)
  else d ++ [(k, v)]

/-- The per-binding failure message
`f"Failed to register Ctrl+Shift+\x7bletter\x7d (id=\x7bhid.name\x7d)"`. -/
def regFailMsg (b : HotkeyID × Char) : String :=
  "Failed to register Ctrl+Shift+" ++ String.singleton b.2
    ++ " (id=" ++ b.1.enumName ++ ")"

/-- The OS registration attempt a binding produces: virtual key
`ord(letter.upper())` under the id's numeric value. -/
def regAttempt (b : HotkeyID × Char) : RegEvent :=
  RegEvent.osRegisterHotkey b.1.val b.2.toUpper.toNat

/-- Loop body of `register_all` for one binding: attempt the OS
registration; on success record the id→vk pair, on failure append the
failure message and keep going. `regOk` is the oracle for the outcome of
`user32.RegisterHotKey` (false e.g. when another process owns the
combination). -/
def registerStep (regOk : HotkeyID → Char → Bool)
    (acc : List (Int × Nat) × List String × List RegEvent)
    (b : HotkeyID × Char) : List (Int × Nat) × List String × List RegEvent :=
  let vk := b.2.toUpper.toNat
  let evs := acc.2.2 ++ [RegEvent.osRegisterHotkey b.1.val vk]
  if regOk b.1 b.2 then (dictInsert acc.1 b.1.val vk, acc.2.1, evs)
  else (acc.1, acc.2.1 ++ [regFailMsg b], evs)

/-- Embeds `HotkeyManager.register_all`. `isWindows` is the
`_IS_WINDOWS` platform flag; a binding maps a `HotkeyID` to its single
trigger letter. Returns the successor manager, the error-message list the
Python method returns, and the OS actions taken (the running
`QApplication` instance is assumed to exist for the filter install). -/
def HotkeyManager.register_all (isWindows : Bool)
    (regOk : HotkeyID → Char → Bool) (m : HotkeyManager)
    (bindings : List (HotkeyID × Char)) :
    HotkeyManager × List String × List RegEvent :=
  if isWindows = false then (m, ["Global hotkeys require Windows"], [])
  else
    let folded := bindings.foldl (registerStep regOk) (m.registered, [], [])
    let installEvs : List RegEvent :=
      if m.filterInstalled then [] else [RegEvent.installFilter]
    ({ registered := folded.1, filterInstalled := true },
     folded.2.1, folded.2.2 ++ installEvs)

/-! ## `editor/runner.py` — `AHKRunner` -/

/-- Embeds the `RunState` enumeration. -/
inductive RunState
  | IDLE
  | RUNNING
  | ERROR
deriving DecidableEq, Repr

/-- Embeds `QProcess.ProcessState` as far as the runner observes it. -/
inductive ProcState
  | NotRunning
  | Starting
  | Running
deriving DecidableEq, Repr

/-- Embeds `QProcess.ExitStatus`: the OS-reported exit-status kind. -/
inductive ExitStatus
  | NormalExit
  | CrashExit
deriving DecidableEq, Repr

/-- Qt signal emissions and OS actions of the runner, recorded as events. -/
inductive Event
  | state_changed (s : RunState)
  | stdout_ready (text : String)
  | stderr_ready (text : String)
  | finished (exit_code : Int) (message : String)
  | procStart (program : String) (arguments : List String) (workingDir : String)
  | terminate
  | kill
  | timerStart (ms : Int)
  | timerStop
deriving DecidableEq, Repr

/-- Embeds the mutable fields of `AHKRunner`: `self._process` (present
together with its current `QProcess` state), `self._state`,
`self._temp_file`, and whether `self._kill_timer` holds an armed pending
one-shot timer. -/
structure Runner where
  process : Option ProcState := none
  state : RunState := RunState.IDLE
  temp_file : Option String := none
  kill_timer : Bool := false
deriving DecidableEq, Repr

/-- The liveness test the runner uses in `run`, `stop` and `_hard_kill`:
`self._process is not None and self._process.state() != NotRunning`. -/
def processAlive (r : Runner) : Bool :=
  match r.process with
  | some ProcState.Starting => true
  | some ProcState.Running => true
  | _ => false

/-- Embeds `AHKRunner.run`. `tmpName` is the oracle for the unique name
`tempfile.mkstemp` would produce; `startOk` is the oracle for
`waitForStarted(3000)`. Returns the successor runner and the emitted
signals/actions in program order. -/
def Runner.run (r : Runner) (ahk_exe script_path flags args working_dir : String)
    (unsaved_text : Option String) (tmpName : String) (startOk : Bool) :
    Runner × List Event :=
  if processAlive r then (r, [])
  else
    let targetTemp : String × Option String :=
      match unsaved_text with
      | some _ => (tmpName, some tmpName)
      | none => (script_path, r.temp_file)
    let target := targetTemp.1
    let wd := if working_dir = "" then pathDirname target else working_dir
    let cmd_parts := [ahk_exe]
      ++ (if flags ≠ "" then pySplit flags else [])
      ++ [target]
      ++ (if args ≠ "" then pySplit args else [])
    let program := cmd_parts.headD ""
    let arguments := cmd_parts.tail
    let r' : Runner :=
      { process := some (if startOk then ProcState.Running else ProcState.NotRunning)
        state := if startOk then RunState.RUNNING else RunState.ERROR
        temp_file := targetTemp.2
        kill_timer := r.kill_timer }
    let evs :=
      [Event.state_changed RunState.RUNNING,
       Event.stdout_ready (">> " ++ String.intercalate " " cmd_parts ++ "\n"),
       Event.procStart program arguments wd]
      ++ (if startOk then []
          else [Event.state_changed RunState.ERROR,
                Event.finished (-1) "Failed to start AHK process"])
    (r', evs)

/-- Embeds `AHKRunner.stop`: a no-op unless a live process exists;
otherwise sends `terminate()` and arms a single-shot kill timer for
`graceful_timeout_ms`. -/
def Runner.stop (r : Runner) (graceful_timeout_ms : Int) : Runner × List Event :=
  if r.process = none ∨ r.process = some ProcState.NotRunning then (r, [])
  else
    ({ r with kill_timer := true },
     [Event.terminate, Event.timerStart graceful_timeout_ms])

/-- Embeds `AHKRunner._hard_kill`: `kill()` only if a live process exists. -/
def Runner.hardKill (r : Runner) : Runner × List Event :=
  if processAlive r then (r, [Event.kill]) else (r, [])

/-- Embeds `AHKRunner._on_finished`. `tempFileExists` is the oracle for
`os.path.exists(self._temp_file)`; the `OSError` of a failed remove is
swallowed as in the source. -/
def Runner.onFinished (r : Runner) (exit_code : Int) (exit_status : ExitStatus)
    (tempFileExists : Bool) : Runner × List Event :=
  let stopped : Runner × List Event :=
    if r.kill_timer then ({ r with kill_timer := false }, [Event.timerStop])
    else (r, [])
  let r1 := stopped.1
  let r2 : Runner :=
    match r1.temp_file with
    | some _ => if tempFileExists then { r1 with temp_file := none } else r1
    | none => r1
  if exit_code = 0 then
    ({ r2 with state := RunState.IDLE },
     stopped.2 ++ [Event.state_changed RunState.IDLE,
                   Event.finished exit_code "Process exited normally"])
  else
    let label := if exit_status = ExitStatus.CrashExit then "crashed" else "exited"
    ({ r2 with state := RunState.ERROR },
     stopped.2 ++ [Event.state_changed RunState.ERROR,
                   Event.finished exit_code
                     ("Process " ++ label ++ " with code " ++ toString exit_code)])

/-- External occurrences the runner reacts to: the child process exits
(Qt first flips the `QProcess` state to `NotRunning`, then delivers the
`finished` signal), or the armed single-shot kill timer fires. -/
inductive ExtEvent
  | procExited (exit_code : Int) (exit_status : ExitStatus) (tempFileExists : Bool)
  | timerFired
deriving DecidableEq, Repr

/-- One reaction step of the runner to an external occurrence. A stopped
(disarmed) timer never fires, so `timerFired` applies only while the
timer is armed; firing consumes the one-shot timer and runs `_hard_kill`. -/
def extStep (r : Runner) : ExtEvent → Runner × List Event
  | ExtEvent.procExited c s te =>
      Runner.onFinished
        { r with process := r.process.map (fun _ => ProcState.NotRunning) } c s te
  | ExtEvent.timerFired =>
      if r.kill_timer then Runner.hardKill { r with kill_timer := false }
      else (r, [])

/-- Runs a sequence of external occurrences, accumulating emitted events. -/
def runTrace (r : Runner) (es : List ExtEvent) : Runner × List Event :=
  es.foldl (fun acc e =>
    let step := extStep acc.1 e
    (step.1, acc.2 ++ step.2)) (r, [])

/-! ## Spec-side decompositions

The following definitions follow the spec's words (one statement per
generated construct, per-branch argument shapes); the theorems below
compare the source-translated generators against them. -/

/-- The single click statement of the spec's branch rules: terse
two-argument form for left/single, empty button placeholder for
left/multiple, explicit button name otherwise, count appended when
greater than one. -/
def clickLine (x y : Int) (button : String) (count : Int) : String :=
  if button = "Left" ∧ count = 1 then
    "Click " ++ toString x ++ ", " ++ toString y
  else if button = "Left" ∧ count > 1 then
    "Click " ++ toString x ++ ", " ++ toString y ++ ",, " ++ toString count
  else if count = 1 then
    "Click " ++ toString x ++ ", " ++ toString y ++ ", \"" ++ button ++ "\""
  else
    "Click " ++ toString x ++ ", " ++ toString y ++ ", \"" ++ button
      ++ "\", " ++ toString count

/-- The polling block of the spec's two `pixel_loop` variants: an
unconditional loop that either re-samples and compares for exact
equality, or runs the bounded-region search primitive with the given
tolerance; both sleep 100ms between attempts and break on match. -/
def pixelLoopBody (x y : Int) (target_color : String) (variation : Int)
    (use_pixel_search : Bool) : String :=
  if use_pixel_search then
    "Loop \x7b\n    if PixelSearch(&FoundX, &FoundY, " ++ toString x ++ ", "
      ++ toString y ++ ", " ++ toString x ++ ", " ++ toString y ++ ", \""
      ++ target_color ++ "\", " ++ toString variation
      ++ ")\n        break\n    Sleep 100\n\x7d"
  else
    "Loop \x7b\n    CurrentColor := PixelGetColor(" ++ toString x ++ ", "
      ++ toString y ++ ")\n    if (CurrentColor = \"" ++ target_color
      ++ "\")\n        break\n    Sleep 100\n\x7d"

/-- The comment item list of the spec's `win_activate`: whichever of
title, class name and process name are non-empty, each with its label,
in that fixed order. -/
def winParts (title class_name process : String) : List String :=
  (if title ≠ "" then ["Title: " ++ title] else [])
    ++ (if class_name ≠ "" then ["Class: " ++ class_name] else [])
    ++ (if process ≠ "" then ["Process: " ++ process] else [])

/-- The id→vk table produced by a `register_all` pass: each successfully
registered binding inserted in order, failed bindings skipped. -/
def regFold (regOk : HotkeyID → Char → Bool) (reg : List (Int × Nat))
    (bs : List (HotkeyID × Char)) : List (Int × Nat) :=
  bs.foldl
    (fun d b =>
      if regOk b.1 b.2 then dictInsert d b.1.val b.2.toUpper.toNat else d) reg

end AHKMiniIDE

namespace AHKMiniIDE

theorem clickLine_left_one {button : String} {count : Int} (x y : Int)
    (hb : button = "Left") (hc : count = 1) :
    clickLine x y button count = "Click " ++ toString x ++ ", " ++ toString y := by
  simp [clickLine, hb, hc]

theorem clickLine_left_many {button : String} {count : Int} (x y : Int)
    (hb : button = "Left") (hc : count > 1) :
    clickLine x y button count
      = "Click " ++ toString x ++ ", " ++ toString y ++ ",, " ++ toString count := by
  have h1 : ¬(button = "Left" ∧ count = 1) := by rintro ⟨_, h⟩; omega
  rw [clickLine]
  rw [if_neg h1, if_pos ⟨hb, hc⟩]

theorem clickLine_named {button : String} {count : Int} (x y : Int)
    (hb : button ≠ "Left") :
    clickLine x y button count
      = "Click " ++ toString x ++ ", " ++ toString y ++ ", \"" ++ button ++ "\""
          ++ (if count = 1 then "" else ", " ++ toString count) := by
  have h1 : ¬(button = "Left" ∧ count = 1) := fun h => hb h.1
  have h2 : ¬(button = "Left" ∧ count > 1) := fun h => hb h.1
  by_cases h3 : count = 1
  · rw [clickLine, if_neg h1, if_neg h2, if_pos h3, if_pos h3, String.append_empty]
  · rw [clickLine, if_neg h1, if_neg h2, if_neg h3, if_neg h3,
      show ("\", " : String) = "\"" ++ ", " from rfl]
    simp only [String.append_assoc]

/-- Decomposition of `gen_click` into its coordinate-mode header and its
single click statement. -/
theorem gen_click_decomp (x y : Int) (button : String) (count : Int)
    (coord_mode : String) :
    gen_click x y button count coord_mode
      = "CoordMode \"Mouse\", \"" ++ coord_mode ++ "\"\n"
          ++ clickLine x y button count := by
  by_cases h1 : button = "Left" ∧ count = 1
  · simp only [gen_click, clickLine, if_pos h1, String.append_assoc]
  · by_cases h2 : button = "Left" ∧ count > 1
    · simp only [gen_click, clickLine, if_neg h1, if_pos h2, String.append_assoc]
    · by_cases h3 : count = 1
      · simp only [gen_click, clickLine, if_neg h1, if_neg h2, if_pos h3,
          String.append_assoc]
      · simp only [gen_click, clickLine, if_neg h1, if_neg h2, if_neg h3,
          String.append_assoc]

/-- Claim C4: for every input, `gen_click` is exactly one coordinate-mode
statement followed by exactly one click statement, whose argument shape
follows the button/count branch rules: terse two-argument form for
left/single, empty placeholder eliding the button for left/multiple,
explicit button name for any non-left button, and the count appended
whenever it exceeds one. -/
theorem gen_click_branch_rules (x y : Int) (button : String) (count : Int)
    (coord_mode : String) :
    gen_click x y button count coord_mode
      = "CoordMode \"Mouse\", \"" ++ coord_mode ++ "\"\n"
          ++ clickLine x y button count
    ∧ (∃ rest, clickLine x y button count = "Click " ++ rest)
    ∧ (button = "Left" ∧ count = 1 →
        clickLine x y button count
          = "Click " ++ toString x ++ ", " ++ toString y)
    ∧ (button = "Left" ∧ count > 1 →
        clickLine x y button count
          = "Click " ++ toString x ++ ", " ++ toString y ++ ",, "
              ++ toString count)
    ∧ (button ≠ "Left" →
        clickLine x y button count
          = "Click " ++ toString x ++ ", " ++ toString y ++ ", \"" ++ button
              ++ "\"" ++ (if count = 1 then "" else ", " ++ toString count))
    ∧ (count > 1 → ∃ pre, clickLine x y button count = pre ++ toString count) := by
  refine ⟨gen_click_decomp x y button count coord_mode, ?_, ?_, ?_, ?_, ?_⟩
  · unfold clickLine
    repeat' split
    all_goals simp only [String.append_assoc]
    all_goals exact ⟨_, rfl⟩
  · rintro ⟨hb, hc⟩; exact clickLine_left_one x y hb hc
  · rintro ⟨hb, hc⟩; exact clickLine_left_many x y hb hc
  · intro hb; exact clickLine_named x y hb
  · intro hc
    by_cases hb : button = "Left"
    · rw [clickLine_left_many x y hb hc]; exact ⟨_, rfl⟩
    · rw [clickLine_named x y hb, if_neg (by omega : ¬count = 1),
        ← String.append_assoc]
      exact ⟨_, rfl⟩

end AHKMiniIDE

namespace AHKMiniIDE

/-- Claim C7: `gen_pixel_loop` is one coordinate-mode statement followed by
an unconditionally-looping polling block; the default variant re-samples
the pixel and compares exact equality against the target color with a
100ms sleep between attempts, the search variant runs the bounded-region
`PixelSearch` with the given tolerance; neither variant carries an
iteration cap (the loop header is a bare `Loop`). -/
theorem gen_pixel_loop_variants (x y : Int) (target_color coord_mode : String)
    (variation : Int) (use_pixel_search : Bool) :
    gen_pixel_loop x y target_color coord_mode variation use_pixel_search
      = "CoordMode \"Pixel\", \"" ++ coord_mode ++ "\"\n"
          ++ pixelLoopBody x y target_color variation use_pixel_search
    ∧ (use_pixel_search = false →
        pixelLoopBody x y target_color variation use_pixel_search
          = "Loop \x7b\n    CurrentColor := PixelGetColor(" ++ toString x
              ++ ", " ++ toString y ++ ")\n    if (CurrentColor = \""
              ++ target_color ++ "\")\n        break\n    Sleep 100\n\x7d")
    ∧ (use_pixel_search = true →
        pixelLoopBody x y target_color variation use_pixel_search
          = "Loop \x7b\n    if PixelSearch(&FoundX, &FoundY, " ++ toString x
              ++ ", " ++ toString y ++ ", " ++ toString x ++ ", " ++ toString y
              ++ ", \"" ++ target_color ++ "\", " ++ toString variation
              ++ ")\n        break\n    Sleep 100\n\x7d")
    ∧ (∃ body, pixelLoopBody x y target_color variation use_pixel_search
          = "Loop \x7b\n" ++ body) := by
  refine ⟨?_, ?_, ?_, ?_⟩
  · cases use_pixel_search <;>
      simp only [gen_pixel_loop, pixelLoopBody, if_true, if_false,
        Bool.false_eq_true, String.append_assoc]
  · intro h; subst h
    simp only [pixelLoopBody, if_false, Bool.false_eq_true]
  · intro h; subst h
    simp only [pixelLoopBody, if_true]
  · cases use_pixel_search
    · rw [show pixelLoopBody x y target_color variation false
          = "Loop \x7b\n" ++ ("    CurrentColor := PixelGetColor(" ++ toString x
            ++ ", " ++ toString y ++ ")\n    if (CurrentColor = \""
            ++ target_color ++ "\")\n        break\n    Sleep 100\n\x7d") from ?_]
      · exact ⟨_, rfl⟩
      · simp only [pixelLoopBody, if_false, Bool.false_eq_true,
          show ("Loop \x7b\n    CurrentColor := PixelGetColor(" : String)
            = "Loop \x7b\n" ++ "    CurrentColor := PixelGetColor(" from rfl,
          String.append_assoc]
    · rw [show pixelLoopBody x y target_color variation true
          = "Loop \x7b\n" ++ ("    if PixelSearch(&FoundX, &FoundY, "
            ++ toString x ++ ", " ++ toString y ++ ", " ++ toString x ++ ", "
            ++ toString y ++ ", \"" ++ target_color ++ "\", "
            ++ toString variation ++ ")\n        break\n    Sleep 100\n\x7d") from ?_]
      · exact ⟨_, rfl⟩
      · simp only [pixelLoopBody, if_true,
          show ("Loop \x7b\n    if PixelSearch(&FoundX, &FoundY, " : String)
            = "Loop \x7b\n" ++ "    if PixelSearch(&FoundX, &FoundY, " from rfl,
          String.append_assoc]

/-- Claim C8: `gen_win_activate` is a single activation statement that
targets the window by the hexadecimal form of the handle, followed by a
trailing comment listing exactly those of title, class name and process
name that are non-empty, comma-joined; with all three empty no comment is
appended. -/
theorem gen_win_activate_statement (hwnd : Int) (title class_name process : String) :
    gen_win_activate hwnd title class_name process
      = "WinActivate \"ahk_id " ++ pythonHex hwnd ++ "\""
          ++ (if winParts title class_name process ≠ [] then
                "  ; " ++ String.intercalate ", " (winParts title class_name process)
              else "")
    ∧ winParts title class_name process
        = (if title = "" then [] else ["Title: " ++ title])
            ++ (if class_name = "" then [] else ["Class: " ++ class_name])
            ++ (if process = "" then [] else ["Process: " ++ process])
    ∧ (title = "" ∧ class_name = "" ∧ process = "" →
        gen_win_activate hwnd title class_name process
          = "WinActivate \"ahk_id " ++ pythonHex hwnd ++ "\"")
    ∧ (0 ≤ hwnd → pythonHex hwnd = "0x" ++ natToHexLower hwnd.natAbs) := by
  refine ⟨rfl, ?_, ?_, ?_⟩
  · by_cases h1 : title = "" <;> by_cases h2 : class_name = "" <;>
      by_cases h3 : process = "" <;> simp [winParts, h1, h2, h3]
  · rintro ⟨h1, h2, h3⟩; subst h1; subst h2; subst h3
    simp [gen_win_activate, String.append_empty]
  · intro h
    rw [pythonHex, if_neg (by omega : ¬hwnd < 0)]

/-- Claim C5: on a platform without the required OS facilities,
`capture_snapshot` is a total constant function: for every input it
returns the snapshot whose window handle is zero, whose pixel color hex
form is the all-zero sentinel `"0x000000"`, and whose every other field
is the empty/zero default. -/
theorem capture_snapshot_total_default (follow_mouse : Bool) (last_hwnd : Int) :
    capture_snapshot follow_mouse last_hwnd
      = { window := { title := "", class_name := "", hwnd := 0, pid := 0,
                      process_name := "", exe_path := "" },
          coords := { screen_x := 0, screen_y := 0, window_x := 0,
                      window_y := 0, client_x := 0, client_y := 0 },
          control := { class_nn := "", hwnd := 0 },
          color := { r := 0, g := 0, b := 0 } }
    ∧ (capture_snapshot follow_mouse last_hwnd).window.hwnd = 0
    ∧ (capture_snapshot follow_mouse last_hwnd).color.hex_rgb = "0x000000"
    ∧ (capture_snapshot follow_mouse last_hwnd).color.decimal_str = "0, 0, 0" :=
  ⟨rfl, rfl, rfl, rfl⟩

end AHKMiniIDE

namespace AHKMiniIDE

set_option maxRecDepth 4096 in
theorem format02X_lt256 : ∀ n : Nat, n < 256 →
    format02X (Int.ofNat n)
      = String.mk [hexDigitUpper (n / 16), hexDigitUpper (n % 16)] := by decide

theorem hexDigitUpper_mem_alphabet : ∀ d : Nat, d < 16 →
    hexDigitUpper d ∈ ("0123456789ABCDEF" : String).data := by decide

/-- Claim C10: for a `PixelColor` whose channels lie in 0..255, `hex_rgb`
is `"0x"` followed by the red, green and blue channels in that order as
two uppercase hexadecimal digits each (eight characters in all), and
`decimal_str` joins the three channel values in decimal with `", "`. -/
theorem pixelColor_hex_decimal (c : PixelColor)
    (hr : 0 ≤ c.r ∧ c.r ≤ 255) (hg : 0 ≤ c.g ∧ c.g ≤ 255)
    (hb : 0 ≤ c.b ∧ c.b ≤ 255) :
    c.hex_rgb
      = "0x" ++ String.mk [hexDigitUpper (c.r.toNat / 16), hexDigitUpper (c.r.toNat % 16)]
          ++ String.mk [hexDigitUpper (c.g.toNat / 16), hexDigitUpper (c.g.toNat % 16)]
          ++ String.mk [hexDigitUpper (c.b.toNat / 16), hexDigitUpper (c.b.toNat % 16)]
    ∧ c.hex_rgb.length = 8
    ∧ (∀ ch ∈ c.hex_rgb.data.drop 2, ch ∈ ("0123456789ABCDEF" : String).data)
    ∧ c.decimal_str
        = String.intercalate ", " [toString c.r, toString c.g, toString c.b] := by
  obtain ⟨hr0, hr1⟩ := hr
  obtain ⟨hg0, hg1⟩ := hg
  obtain ⟨hb0, hb1⟩ := hb
  have er : c.r = Int.ofNat c.r.toNat := (Int.toNat_of_nonneg hr0).symm
  have eg : c.g = Int.ofNat c.g.toNat := (Int.toNat_of_nonneg hg0).symm
  have eb : c.b = Int.ofNat c.b.toNat := (Int.toNat_of_nonneg hb0).symm
  have lr : c.r.toNat < 256 := by omega
  have lg : c.g.toNat < 256 := by omega
  have lb : c.b.toNat < 256 := by omega
  have fr : format02X c.r
      = String.mk [hexDigitUpper (c.r.toNat / 16), hexDigitUpper (c.r.toNat % 16)] := by
    rw [er]; exact format02X_lt256 _ lr
  have fg : format02X c.g
      = String.mk [hexDigitUpper (c.g.toNat / 16), hexDigitUpper (c.g.toNat % 16)] := by
    rw [eg]; exact format02X_lt256 _ lg
  have fb : format02X c.b
      = String.mk [hexDigitUpper (c.b.toNat / 16), hexDigitUpper (c.b.toNat % 16)] := by
    rw [eb]; exact format02X_lt256 _ lb
  have main : c.hex_rgb
      = "0x" ++ String.mk [hexDigitUpper (c.r.toNat / 16), hexDigitUpper (c.r.toNat % 16)]
          ++ String.mk [hexDigitUpper (c.g.toNat / 16), hexDigitUpper (c.g.toNat % 16)]
          ++ String.mk [hexDigitUpper (c.b.toNat / 16), hexDigitUpper (c.b.toNat % 16)] := by
    simp only [PixelColor.hex_rgb, fr, fg, fb]
  refine ⟨main, by rw [main]; rfl, ?_, rfl⟩
  have dataEq : c.hex_rgb.data.drop 2
      = [hexDigitUpper (c.r.toNat / 16), hexDigitUpper (c.r.toNat % 16),
         hexDigitUpper (c.g.toNat / 16), hexDigitUpper (c.g.toNat % 16),
         hexDigitUpper (c.b.toNat / 16), hexDigitUpper (c.b.toNat % 16)] := by
    rw [main]; rfl
  rw [dataEq]
  intro ch hch
  simp only [List.mem_cons, List.not_mem_nil, or_false] at hch
  rcases hch with h | h | h | h | h | h <;> subst h <;>
    exact hexDigitUpper_mem_alphabet _ (by omega)

/-- Claim C10 witness: the theorem applied at the concrete color
(255, 136, 0). -/
theorem pixelColor_hex_decimal_witness :
    (0 ≤ (255 : Int) ∧ (255 : Int) ≤ 255)
    ∧ ((PixelColor.mk 255 136 0).hex_rgb = "0xFF8800"
        ∧ (PixelColor.mk 255 136 0).hex_rgb.length = 8
        ∧ (∀ ch ∈ (PixelColor.mk 255 136 0).hex_rgb.data.drop 2,
            ch ∈ ("0123456789ABCDEF" : String).data)
        ∧ (PixelColor.mk 255 136 0).decimal_str = "255, 136, 0") := by
  refine ⟨by decide, ?_⟩
  obtain ⟨h1, h2, h3, h4⟩ := pixelColor_hex_decimal (PixelColor.mk 255 136 0)
    (by decide) (by decide) (by decide)
  exact ⟨h1.trans (by decide), h2, h3, h4.trans (by decide)⟩

end AHKMiniIDE

namespace AHKMiniIDE

/-- Claim C1: while a live child process exists, `run` is a no-op — the
runner is returned unchanged (so a `RUNNING` state remains `RUNNING`), no
second process is spawned, and no state-changed or output notification is
emitted for the rejected request. -/
theorem run_noop_while_running (r : Runner)
    (ahk_exe script_path flags args working_dir : String)
    (unsaved_text : Option String) (tmpName : String) (startOk : Bool)
    (h : processAlive r = true) :
    Runner.run r ahk_exe script_path flags args working_dir unsaved_text
        tmpName startOk = (r, [])
    ∧ (Runner.run r ahk_exe script_path flags args working_dir unsaved_text
        tmpName startOk).1.state = r.state
    ∧ (∀ p a w, Event.procStart p a w
        ∉ (Runner.run r ahk_exe script_path flags args working_dir unsaved_text
            tmpName startOk).2)
    ∧ (∀ s, Event.state_changed s
        ∉ (Runner.run r ahk_exe script_path flags args working_dir unsaved_text
            tmpName startOk).2)
    ∧ (∀ t, Event.stdout_ready t
        ∉ (Runner.run r ahk_exe script_path flags args working_dir unsaved_text
            tmpName startOk).2) := by
  simp [Runner.run, h]

/-- Claim C1 witness: a runner with a live process in state `RUNNING`
rejects a concrete run request unchanged. -/
theorem run_noop_while_running_witness :
    processAlive { process := some ProcState.Running, state := RunState.RUNNING,
                   temp_file := none, kill_timer := false } = true
    ∧ Runner.run { process := some ProcState.Running, state := RunState.RUNNING,
                   temp_file := none, kill_timer := false }
        "AutoHotkey64.exe" "demo.ahk" "" "" "" none "ahkmini_tmp.ahk" true
        = ({ process := some ProcState.Running, state := RunState.RUNNING,
             temp_file := none, kill_timer := false }, []) :=
  ⟨rfl,
   (run_noop_while_running
      { process := some ProcState.Running, state := RunState.RUNNING,
        temp_file := none, kill_timer := false }
      "AutoHotkey64.exe" "demo.ahk" "" "" "" none "ahkmini_tmp.ahk" true rfl).1⟩

/-- Claim C9: the `run` gate tests child-process liveness, not the
published `RunState`: whenever no live child exists — whatever the
current state, including `ERROR` — `run` proceeds, emits the transition
to `RUNNING`, and spawns a process; when the start succeeds the final
state is `RUNNING`, so `ERROR → RUNNING` is reachable. -/
theorem run_proceeds_when_process_dead (r : Runner)
    (ahk_exe script_path flags args working_dir : String)
    (unsaved_text : Option String) (tmpName : String) (startOk : Bool)
    (h : processAlive r = false) :
    Event.state_changed RunState.RUNNING
      ∈ (Runner.run r ahk_exe script_path flags args working_dir unsaved_text
          tmpName startOk).2
    ∧ (∃ p a w, Event.procStart p a w
        ∈ (Runner.run r ahk_exe script_path flags args working_dir unsaved_text
            tmpName startOk).2)
    ∧ (startOk = true →
        (Runner.run r ahk_exe script_path flags args working_dir unsaved_text
          tmpName startOk).1.state = RunState.RUNNING) := by
  cases startOk <;> simp [Runner.run, h]

/-- Claim C9 witness: a runner in state `ERROR` whose previous process has
exited accepts a new run and ends in state `RUNNING`. -/
theorem run_proceeds_when_process_dead_witness :
    processAlive { process := some ProcState.NotRunning, state := RunState.ERROR,
                   temp_file := none, kill_timer := false } = false
    ∧ (Event.state_changed RunState.RUNNING
        ∈ (Runner.run { process := some ProcState.NotRunning,
                        state := RunState.ERROR, temp_file := none,
                        kill_timer := false }
            "AutoHotkey64.exe" "demo.ahk" "" "" "" none "ahkmini_tmp.ahk" true).2
      ∧ (∃ p a w, Event.procStart p a w
          ∈ (Runner.run { process := some ProcState.NotRunning,
                          state := RunState.ERROR, temp_file := none,
                          kill_timer := false }
              "AutoHotkey64.exe" "demo.ahk" "" "" "" none "ahkmini_tmp.ahk" true).2)
      ∧ (true = true →
          (Runner.run { process := some ProcState.NotRunning,
                        state := RunState.ERROR, temp_file := none,
                        kill_timer := false }
              "AutoHotkey64.exe" "demo.ahk" "" "" "" none "ahkmini_tmp.ahk"
              true).1.state = RunState.RUNNING)) :=
  ⟨rfl,
   run_proceeds_when_process_dead
     { process := some ProcState.NotRunning, state := RunState.ERROR,
       temp_file := none, kill_timer := false }
     "AutoHotkey64.exe" "demo.ahk" "" "" "" none "ahkmini_tmp.ahk" true rfl⟩

/-- Claim C2: on every observed child-process exit, exit code 0 moves the
state to `IDLE` with the completion message classifying a normal exit;
any nonzero code moves the state to `ERROR`, and the classification picks
"crashed with code N" versus "exited with code N" by the OS-reported
exit-status kind, for every combination of code and kind. -/
theorem onFinished_classification (r : Runner) (exit_code : Int)
    (exit_status : ExitStatus) (tempFileExists : Bool) :
    (exit_code = 0 →
      (Runner.onFinished r exit_code exit_status tempFileExists).1.state
          = RunState.IDLE
      ∧ Event.finished 0 "Process exited normally"
          ∈ (Runner.onFinished r exit_code exit_status tempFileExists).2)
    ∧ (exit_code ≠ 0 →
      (Runner.onFinished r exit_code exit_status tempFileExists).1.state
          = RunState.ERROR
      ∧ Event.finished exit_code
          ("Process "
            ++ (if exit_status = ExitStatus.CrashExit then "crashed" else "exited")
            ++ " with code " ++ toString exit_code)
          ∈ (Runner.onFinished r exit_code exit_status tempFileExists).2) := by
  constructor
  · intro h; subst h
    constructor <;> simp [Runner.onFinished]
  · intro h
    constructor <;> simp [Runner.onFinished, h]

end AHKMiniIDE

namespace AHKMiniIDE

theorem processAlive_set_kill_timer (r : Runner) (b : Bool) :
    processAlive { r with kill_timer := b } = processAlive r := by
  simp [processAlive]

theorem onFinished_kill_timer_false (r : Runner) (c : Int) (s : ExitStatus)
    (te : Bool) : (Runner.onFinished r c s te).1.kill_timer = false := by
  cases hk : r.kill_timer <;> cases ht : r.temp_file <;>
    by_cases hc : c = 0 <;>
    simp [Runner.onFinished, hk, ht, hc] <;>
    cases te <;> simp [hk]

theorem kill_not_mem_onFinished (r : Runner) (c : Int) (s : ExitStatus)
    (te : Bool) : Event.kill ∉ (Runner.onFinished r c s te).2 := by
  cases hk : r.kill_timer <;> by_cases hc : c = 0 <;>
    simp [Runner.onFinished, hk, hc]

/-- Claim C3: `stop` is a no-op without a live process; with one it sends
the cooperative termination request and arms the one-shot kill timer;
when the armed timer fires, a forced kill is issued exactly when the
process is still alive; a process exit disarms the timer, so a process
that exits within the graceful window never receives a forced kill. -/
theorem stop_graceful_escalation (r : Runner) (graceful_timeout_ms : Int) :
    (processAlive r = false → Runner.stop r graceful_timeout_ms = (r, []))
    ∧ (processAlive r = true →
        Runner.stop r graceful_timeout_ms
          = ({ r with kill_timer := true },
             [Event.terminate, Event.timerStart graceful_timeout_ms]))
    ∧ (∀ r' : Runner, r'.kill_timer = true →
        (extStep r' ExtEvent.timerFired).2
          = if processAlive r' then [Event.kill] else [])
    ∧ (∀ (r' : Runner) (c : Int) (s : ExitStatus) (te : Bool),
        (extStep r' (ExtEvent.procExited c s te)).1.kill_timer = false)
    ∧ (∀ (r' : Runner) (c : Int) (s : ExitStatus) (te : Bool),
        Event.kill
          ∉ (runTrace r' [ExtEvent.procExited c s te, ExtEvent.timerFired]).2) := by
  refine ⟨?_, ?_, ?_, ?_, ?_⟩
  · intro h
    rcases hp : r.process with _ | ps
    · simp [Runner.stop, hp]
    · cases ps <;> simp_all [Runner.stop, hp, processAlive]
  · intro h
    rcases hp : r.process with _ | ps
    · simp [processAlive, hp] at h
    · cases ps <;> simp_all [Runner.stop, hp, processAlive]
  · intro r' h
    rw [show extStep r' ExtEvent.timerFired
        = if r'.kill_timer then Runner.hardKill { r' with kill_timer := false }
          else (r', []) from rfl, if_pos h]
    rw [Runner.hardKill, processAlive_set_kill_timer]
    by_cases ha : processAlive r' = true
    · rw [if_pos ha, if_pos ha]
    · rw [if_neg ha, if_neg ha]
  · intro r' c s te
    exact onFinished_kill_timer_false _ c s te
  · intro r' c s te
    have h2 := onFinished_kill_timer_false
      { r' with process := r'.process.map (fun _ => ProcState.NotRunning) } c s te
    simp only [runTrace, List.foldl_cons, List.foldl_nil, extStep]
    rw [if_neg (by rw [h2]; exact Bool.false_ne_true)]
    simp only [List.append_nil, List.nil_append]
    exact kill_not_mem_onFinished _ c s te

end AHKMiniIDE

namespace AHKMiniIDE

theorem registerStep_foldl (regOk : HotkeyID → Char → Bool)
    (bs : List (HotkeyID × Char)) :
    ∀ (reg : List (Int × Nat)) (errs : List String) (evs : List RegEvent),
      bs.foldl (registerStep regOk) (reg, errs, evs)
        = (regFold regOk reg bs,
           errs ++ (bs.filter (fun b => ! regOk b.1 b.2)).map regFailMsg,
           evs ++ bs.map regAttempt) := by
  induction bs with
  | nil => intro reg errs evs; simp [regFold]
  | cons b bs ih =>
    intro reg errs evs
    by_cases h : regOk b.1 b.2
    · simp only [List.foldl_cons, registerStep, h, if_true, regFold,
        List.filter_cons, Bool.not_true, List.map_cons, ih]
      simp [regFold, h, regAttempt]
    · simp only [List.foldl_cons, registerStep, h, if_false, regFold,
        List.filter_cons, Bool.not_false, List.map_cons, ih]
      simp [regFold, h, regAttempt]

/-- Claim C6: `register_all` collects a per-binding failure message for
every binding whose OS registration fails while attempting every binding
(no abort on first failure); it installs at most one global event
interceptor, idempotently across calls; and on a platform without a
global-hotkey facility it registers nothing and returns exactly one
aggregate error message. -/
theorem register_all_behaviour (regOk : HotkeyID → Char → Bool)
    (m : HotkeyManager) (bindings : List (HotkeyID × Char)) :
    HotkeyManager.register_all false regOk m bindings
        = (m, ["Global hotkeys require Windows"], [])
    ∧ (HotkeyManager.register_all true regOk m bindings).2.1
        = (bindings.filter (fun b => ! regOk b.1 b.2)).map regFailMsg
    ∧ (HotkeyManager.register_all true regOk m bindings).2.2
        = bindings.map regAttempt
            ++ (if m.filterInstalled then [] else [RegEvent.installFilter])
    ∧ (HotkeyManager.register_all true regOk m bindings).1.registered
        = regFold regOk m.registered bindings
    ∧ (HotkeyManager.register_all true regOk m bindings).1.filterInstalled = true
    ∧ (m.filterInstalled = true →
        RegEvent.installFilter
          ∉ (HotkeyManager.register_all true regOk m bindings).2.2)
    ∧ (HotkeyManager.register_all true regOk m bindings).2.2.countP
        (fun e => e == RegEvent.installFilter) ≤ 1 := by
  have hfold := registerStep_foldl regOk bindings m.registered [] []
  have hatt : ∀ b : HotkeyID × Char,
      (regAttempt b == RegEvent.installFilter) = false := by
    intro b; rfl
  refine ⟨rfl, ?_, ?_, ?_, ?_, ?_, ?_⟩
  · simp [HotkeyManager.register_all, hfold]
  · simp [HotkeyManager.register_all, hfold]
  · simp [HotkeyManager.register_all, hfold]
  · simp [HotkeyManager.register_all]
  · intro h
    have hev : (HotkeyManager.register_all true regOk m bindings).2.2
        = bindings.map regAttempt := by
      simp [HotkeyManager.register_all, hfold, h]
    rw [hev]
    intro hmem
    obtain ⟨b, _, hb⟩ := List.mem_map.mp hmem
    simp [regAttempt] at hb
  · simp only [HotkeyManager.register_all, if_neg (by simp : ¬(true = false)),
      hfold]
    rw [List.countP_append, List.countP_append]
    have h0 : List.countP (fun e => e == RegEvent.installFilter)
        (bindings.map regAttempt) = 0 := by
      rw [List.countP_eq_zero]
      intro e he
      obtain ⟨b, _, rfl⟩ := List.mem_map.mp he
      rw [hatt b]
      exact Bool.false_ne_true
    cases hf : m.filterInstalled <;> simp [h0]

end AHKMiniIDE
